import Mathlib

/-!
Shallow embedding of the SharePoint backup tool (src/sharepoint_backup.py).

The durable progress store (SQLite tables `downloads`, `sites`, `statistics`)
is modelled as lists of records plus a counters structure; each store
operation from the source is translated into a pure function on this state.
Timestamps, logging and the network layer are outside the properties being
checked and are not modelled; megabyte sizes (REAL columns) are modelled as
rationals.
-/

namespace SPB

/-- Status values stored in `downloads.status`. -/
inductive FileStatus
  | discovered
  | downloading
  | completed
  | failed
deriving DecidableEq, Repr

/-- Status values stored in `sites.status`. -/
inductive SiteStatus
  | pending
  | processing
  | completed
  | completedWithErrors
  | empty
deriving DecidableEq, Repr

/-- One row of the `downloads` table (timestamp columns omitted). -/
structure DownloadRec where
  filePath : String
  siteName : String
  libraryName : String
  fileName : String
  fileSizeMb : Option ℚ
  status : FileStatus
  attemptCount : Nat
  errorMessage : Option String
deriving DecidableEq, Repr

/-- One row of the `sites` table (timestamp columns omitted). -/
structure SiteRec where
  siteName : String
  siteUrl : String
  status : SiteStatus
  totalFiles : Nat
  completedFiles : Nat
  failedFiles : Nat
deriving DecidableEq, Repr

/-- The rows of the `statistics` table that the checked properties touch
(`total_files` and `api_errors` are never updated by the modelled paths). -/
structure Statistics where
  successfulDownloads : Nat
  failedDownloads : Nat
  skippedExisting : Nat
  mbDownloaded : ℚ
deriving DecidableEq, Repr

/-- The progress store: `downloads` rows (file_path is the unique key),
`sites` rows (site_name is the unique key) and the statistics counters. -/
structure DB where
  downloads : List DownloadRec
  sites : List SiteRec
  stats : Statistics
deriving DecidableEq, Repr

/-- `bytes_to_mb` (line 385): `bytes_size / (1024 * 1024) if bytes_size else 0`. -/
def bytesToMb (b : Nat) : ℚ :=
  if b ≠ 0 then (b : ℚ) / (1024 * 1024) else 0

/-- The expression `bytes_to_mb(file_size_bytes) if file_size_bytes else None`
used by `update_download_status` (line 563): Python truthiness maps both
`None` and `0` to `None`. -/
def sizeMbOfBytes : Option Nat → Option ℚ
  | some b => if b ≠ 0 then some (bytesToMb b) else none
  | none => none

/-- `update_download_status` (lines 559-598).  The `completed` branch writes
`status`, clears `error_message`, sets `file_size_mb = COALESCE(?, file_size_mb)`
and bumps `successful_downloads` (and `mb_downloaded` when the size is truthy);
the `failed` branch writes `status` and `error_message` and bumps
`failed_downloads`.  Any other status argument leaves the store unchanged. -/
def updateDownloadStatus (db : DB) (path : String) (st : FileStatus)
    (errorMessage : Option String) (fileSizeBytes : Option Nat) : DB :=
  if st = .completed then
    let fileSizeMb := sizeMbOfBytes fileSizeBytes
    let downloads := db.downloads.map fun r =>
      if r.filePath = path then
        { r with status := FileStatus.completed, errorMessage := none,
                 fileSizeMb := match fileSizeMb with
                               | some m => some m
                               | none => r.fileSizeMb }
      else r
    let stats1 :=
      { db.stats with successfulDownloads := db.stats.successfulDownloads + 1 }
    let stats2 :=
      match fileSizeMb with
      | some m => if m ≠ 0 then { stats1 with mbDownloaded := stats1.mbDownloaded + m } else stats1
      | none => stats1
    { db with downloads := downloads, stats := stats2 }
  else if st = .failed then
    let downloads := db.downloads.map fun r =>
      if r.filePath = path then
        { r with status := FileStatus.failed, errorMessage := errorMessage }
      else r
    { db with downloads := downloads,
              stats := { db.stats with failedDownloads := db.stats.failedDownloads + 1 } }
  else db

/-- `get_file_status` (lines 536-546): returns the row's (status, attempt_count)
or `(None, 0)` when the path has no row. -/
def getFileStatus (db : DB) (path : String) : Option FileStatus × Nat :=
  match db.downloads.find? (fun r => decide (r.filePath = path)) with
  | some r => (some r.status, r.attemptCount)
  | none => (none, 0)

/-- The `UPDATE downloads SET status='downloading', attempt_count = attempt_count + 1,
last_attempt = ...` statement in `download_file` (lines 772-780). -/
def markDownloading (db : DB) (path : String) : DB :=
  { db with downloads := db.downloads.map fun r =>
      if r.filePath = path then
        { r with status := FileStatus.downloading, attemptCount := r.attemptCount + 1 }
      else r }

/-- The three-way dispatch a worker performs on a dequeued item (lines 858-864). -/
inductive WorkerDecision
  | skipCompleted
  | skipMaxRetries
  | attemptDownload
deriving DecidableEq, Repr

/-- Worker dispatch on the result of `get_file_status` (lines 858-864):
skip when completed, skip when failed with `attempt_count >= MAX_RETRY`,
otherwise call `download_file`. -/
def workerDecision (status : Option FileStatus) (attemptCount maxRetry : Nat) :
    WorkerDecision :=
  if status = some .completed then .skipCompleted
  else if status = some .failed ∧ attemptCount ≥ maxRetry then .skipMaxRetries
  else .attemptDownload

/-- The discovery walker's per-file check in `process_folder` (lines 924-939):
a file is recorded and enqueued exactly when its status is not `completed`. -/
def walkerEnqueues (status : Option FileStatus) : Bool :=
  decide (status ≠ some FileStatus.completed)

/-- SQL `SUM(CASE WHEN p THEN 1 ELSE 0 END)` over a row set. -/
def countBy (p : DownloadRec → Bool) (rs : List DownloadRec) : Nat :=
  (rs.filter p).length

/-- The aggregate row of the counts query in `update_site_status` (lines 472-479). -/
structure SiteCounts where
  total : Nat
  completed : Nat
  failed : Nat
deriving DecidableEq, Repr

/-- The `SELECT COUNT(*), SUM(CASE WHEN status='completed' ...), SUM(CASE WHEN
status='failed' ...) FROM downloads WHERE site_name = ?` query (lines 472-479). -/
def siteCounts (downloads : List DownloadRec) (site : String) : SiteCounts :=
  let rs := downloads.filter (fun r => decide (r.siteName = site))
  { total := rs.length
  , completed := countBy (fun r => decide (r.status = .completed)) rs
  , failed := countBy (fun r => decide (r.status = .failed)) rs }

/-- The status branch of `update_site_status` (lines 481-489). -/
def deriveSiteStatus (c : SiteCounts) : SiteStatus :=
  if c.total = 0 then .empty
  else if c.completed = c.total then .completed
  else if c.failed > 0 ∧ c.completed + c.failed = c.total then .completedWithErrors
  else .processing

/-- `update_site_status` (lines 468-509): recomputes the counts from the
`downloads` rows of the site, derives the status, writes it (with the counts)
to the site's `sites` row, and returns it.  The two SQL branches of the source
differ only in the `completed_at` timestamp, which is not modelled. -/
def updateSiteStatus (db : DB) (site : String) : DB × SiteStatus :=
  let c := siteCounts db.downloads site
  let status := deriveSiteStatus c
  let sites := db.sites.map fun s =>
    if s.siteName = site then
      { s with status := status, totalFiles := c.total,
               completedFiles := c.completed, failedFiles := c.failed }
    else s
  ({ db with sites := sites }, status)

/-- The spec's pure rollup function, stated over the record set in the claim's
own terms: zero files gives `empty`; all files completed gives `completed`;
some file failed and completed+failed equal to total gives
`completed_with_errors`; otherwise `processing`.  Kept separate from
`deriveSiteStatus` (which transcribes the code) so the two can be compared. -/
def specSiteStatus (downloads : List DownloadRec) (site : String) : SiteStatus :=
  let rs := downloads.filter (fun r => decide (r.siteName = site))
  if rs = [] then .empty
  else if ∀ r ∈ rs, r.status = FileStatus.completed then .completed
  else if (∃ r ∈ rs, r.status = FileStatus.failed) ∧
      countBy (fun r => decide (r.status = .completed)) rs
        + countBy (fun r => decide (r.status = .failed)) rs = rs.length then
    .completedWithErrors
  else .processing

/-! ## Per-file retry lifecycle (claims about `download_file`,
`should_retry_failed_files` and the worker skip checks) -/

/-- The (status, attempt_count) projection of one `downloads` row. -/
structure FileState where
  status : FileStatus
  attemptCount : Nat
deriving DecidableEq, Repr

/-- Net store effect of one `download_file` invocation whose download
capability always fails and whose local file does not exist (lines 772-826):
the single `attempt_count = attempt_count + 1` bump of the `downloading`
update, followed (after the in-call retry loop is exhausted) by a terminal
`failed` write. -/
def downloadFileAlwaysFails (f : FileState) : FileState :=
  { status := FileStatus.failed, attemptCount := f.attemptCount + 1 }

/-- `should_retry_failed_files` (lines 511-534) restricted to one file:
rows with `status='failed' AND attempt_count < MAX_RETRY` are reset to
`discovered` (attempt_count untouched). -/
def retryReset (maxRetry : Nat) (f : FileState) : FileState :=
  if f.status = .failed ∧ f.attemptCount < maxRetry then
    { f with status := FileStatus.discovered }
  else f

/-- The worker's handling of one dequeued always-failing file (lines 858-865):
skip when completed, skip when failed with exhausted attempts, otherwise run
`download_file`. -/
def workerStep (maxRetry : Nat) (f : FileState) : FileState :=
  if f.status = .completed then f
  else if f.status = .failed ∧ f.attemptCount ≥ maxRetry then f
  else downloadFileAlwaysFails f

/-- One pass of `backup_sharepoint_site` over an always-failing file:
`should_retry_failed_files` runs first (line 963), then discovery re-enqueues
the file (status is not `completed`) and a worker processes it. -/
def sitePass (maxRetry : Nat) (f : FileState) : FileState :=
  workerStep maxRetry (retryReset maxRetry f)

/-! ## One invocation of `download_file`: attempt outcomes, sleeps and
terminal writes (lines 746-833) -/

/-- Outcome of one `file_item.download(...)` call inside the retry loop:
a truthy response, a falsy response, a generic raised exception, or an
`IndexError`. -/
inductive AttemptOutcome
  | success
  | noResponse
  | raised
  | idxError
deriving DecidableEq, Repr

/-- A terminal status write performed through `update_download_status`. -/
inductive TerminalWrite
  | completedW
  | failedW
deriving DecidableEq, Repr

/-- Terminal writes, backoff sleeps and success flag of one run of the
retry loop. -/
structure LoopTrace where
  writes : List TerminalWrite
  sleeps : List Nat
  succeeded : Bool
deriving DecidableEq, Repr

/-- The `for attempt in range(config['MAX_RETRY'])` loop of `download_file`
(lines 783-819), processing the outcome list (one entry per attempt, so the
list length is MAX_RETRY) with `i` the 0-based index of the first entry:
- truthy response: write `completed` and return;
- falsy response: sleep `API_RETRY_DELAY * (attempt + 1)` unless last attempt;
- `IndexError`: sleep `API_RETRY_DELAY * (attempt + 1)` unless last attempt,
  on the last attempt write `failed`;
- generic exception: sleep `2 * (attempt + 1)` unless last attempt, on the
  last attempt write `failed`. -/
def retryLoopTrace (baseDelay : Nat) (i : Nat) : List AttemptOutcome → LoopTrace
  | [] => ⟨[], [], false⟩
  | o :: rest =>
    match o with
    | .success => ⟨[.completedW], [], true⟩
    | .noResponse =>
      if rest.isEmpty then ⟨[], [], false⟩
      else
        let t := retryLoopTrace baseDelay (i + 1) rest
        ⟨t.writes, baseDelay * (i + 1) :: t.sleeps, t.succeeded⟩
    | .raised =>
      if rest.isEmpty then ⟨[.failedW], [], false⟩
      else
        let t := retryLoopTrace baseDelay (i + 1) rest
        ⟨t.writes, 2 * (i + 1) :: t.sleeps, t.succeeded⟩
    | .idxError =>
      if rest.isEmpty then ⟨[.failedW], [], false⟩
      else
        let t := retryLoopTrace baseDelay (i + 1) rest
        ⟨t.writes, baseDelay * (i + 1) :: t.sleeps, t.succeeded⟩

/-- Trace of one `download_file` call past the size-match precheck: the retry
loop, then — whenever no attempt returned a truthy response — the
unconditional `update_download_status(local_path, 'failed', final_error)`
after the loop (lines 821-824). -/
def downloadFileTrace (baseDelay : Nat) (outcomes : List AttemptOutcome) : LoopTrace :=
  let t := retryLoopTrace baseDelay 0 outcomes
  if t.succeeded then t else { t with writes := t.writes ++ [TerminalWrite.failedW] }

/-- Number of `file_item.download(...)` invocations the retry loop performs:
one per outcome up to and including the first truthy response. -/
def downloadCallCount : List AttemptOutcome → Nat
  | [] => 0
  | o :: rest => if o = .success then 1 else 1 + downloadCallCount rest

/-- The size-comparison precheck of `download_file` (lines 760-768): skip the
download when the local file exists, the remote size is known and truthy
(Python `if remote_size and local_size == remote_size`), and the sizes match. -/
def precheckSkips (localExists : Bool) (localSize : Nat) (remoteSize : Option Nat) : Bool :=
  localExists &&
    match remoteSize with
    | some rs => decide (rs ≠ 0) && decide (localSize = rs)
    | none => false

/-- One whole `download_file` invocation (lines 746-833) as a store transformer,
returning the new store and the number of download-capability calls made.
On a size match it runs `update_download_status(..., 'completed',
file_size_bytes=local_size)` and returns with no download call; otherwise it
marks the row `downloading` (bumping attempt_count), runs the retry loop and
applies its terminal writes.  `obsSize` is the observed local size used by a
successful completion write; `errMsg` stands for the error text of a failure
write (the source uses different strings per branch). -/
def downloadFileRun (db : DB) (path : String) (localExists : Bool)
    (localSize : Nat) (remoteSize : Option Nat) (baseDelay : Nat)
    (outcomes : List AttemptOutcome) (obsSize : Option Nat) (errMsg : String) :
    DB × Nat :=
  if precheckSkips localExists localSize remoteSize then
    (updateDownloadStatus db path .completed none (some localSize), 0)
  else
    let db1 := markDownloading db path
    let t := downloadFileTrace baseDelay outcomes
    (t.writes.foldl
      (fun d w =>
        match w with
        | .completedW => updateDownloadStatus d path .completed none obsSize
        | .failedW => updateDownloadStatus d path .failed (some errMsg) none)
      db1,
     downloadCallCount outcomes)

/-! ## Worker retirement check (lines 880-891) -/

/-- The worker's `queue.Empty` check (lines 883-886):
`SELECT COUNT(*) FROM downloads WHERE status='downloading'` — the query has
no site or library filter. -/
def countDownloadingAll (db : DB) : Nat :=
  countBy (fun r => decide (r.status = .downloading)) db.downloads

/-- The worker retires on an empty-queue timeout exactly when the global
downloading count is zero (lines 888-890). -/
def workerRetires (db : DB) : Bool :=
  decide (countDownloadingAll db = 0)

/-- The count the claim describes: files of one site+library still
`downloading`.  (The source runs this scoped query only in the orchestrator's
drain poll, lines 1115-1119, not in the worker's retirement check.) -/
def countDownloadingInLibrary (db : DB) (site library : String) : Nat :=
  countBy (fun r => decide (r.status = .downloading ∧ r.siteName = site ∧
    r.libraryName = library)) db.downloads

/-- The retirement condition as the claim states it: no file of this worker's
site+library is still downloading. -/
def specWorkerRetires (db : DB) (site library : String) : Bool :=
  decide (countDownloadingInLibrary db site library = 0)

/-! ## Site reset (`--reset-site`, lines 1353-1365) -/

/-- The `--reset-site` branch of `main` (lines 1353-1365): delete the site's
`sites` row, set every `downloads` row of the site with status other than
`completed` to `discovered` with attempt_count 0, and report
`conn.total_changes` — the connection-lifetime count of changed rows, i.e.
any changes made earlier on the connection (`priorChanges`) plus the rows
deleted from `sites` plus the rows matched by the `UPDATE downloads`. -/
def resetSite (db : DB) (site : String) (priorChanges : Nat) : DB × Nat :=
  let deleted := (db.sites.filter (fun s => decide (s.siteName = site))).length
  let sites := db.sites.filter (fun s => !decide (s.siteName = site))
  let updated := countBy
    (fun r => decide (r.siteName = site ∧ r.status ≠ .completed)) db.downloads
  let downloads := db.downloads.map fun r =>
    if r.siteName = site ∧ r.status ≠ .completed then
      { r with status := FileStatus.discovered, attemptCount := 0 }
    else r
  ({ db with sites := sites, downloads := downloads },
   priorChanges + deleted + updated)

/-! ## Concrete store states used to instantiate the theorems -/

/-- A `downloads` row with the fields the properties do not constrain fixed. -/
def sampleRec (path site library : String) (st : FileStatus) (ac : Nat) :
    DownloadRec :=
  { filePath := path, siteName := site, libraryName := library, fileName := path,
    fileSizeMb := none, status := st, attemptCount := ac, errorMessage := none }

/-- Statistics counters at their initialization values (lines 357-364). -/
def statsZero : Statistics := ⟨0, 0, 0, 0⟩

/-- A store with one completed and one exhausted-failed file of site S. -/
def dbRollup : DB :=
  { downloads := [sampleRec "a" "S" "L" .completed 1, sampleRec "b" "S" "L" .failed 3],
    sites := [⟨"S", "https://s", .processing, 0, 0, 0⟩],
    stats := statsZero }

/-- A store with a single discovered file, for the size-match skip path. -/
def dbSkip : DB :=
  { downloads := [sampleRec "f" "S" "L" .discovered 0], sites := [], stats := statsZero }

/-- A store whose only in-flight download belongs to site A, library L1. -/
def dbOtherBusy : DB :=
  { downloads := [sampleRec "p" "A" "L1" .downloading 1], sites := [], stats := statsZero }

/-- A store with nothing in flight (one discovered, one completed file). -/
def dbIdle : DB :=
  { downloads := [sampleRec "q" "A" "L1" .discovered 0, sampleRec "r" "B" "L2" .completed 1],
    sites := [], stats := statsZero }

/-- A store for the reset scenario: site X has one completed and one failed
file, site Y has a discovered file; both sites have a `sites` row. -/
def dbReset : DB :=
  { downloads := [sampleRec "a" "X" "L" .completed 2, sampleRec "b" "X" "L" .failed 3,
                  sampleRec "c" "Y" "L" .discovered 0],
    sites := [⟨"X", "https://x", .processing, 3, 1, 1⟩, ⟨"Y", "https://y", .pending, 1, 0, 0⟩],
    stats := statsZero }

/-- An empty store. -/
def dbEmpty : DB := { downloads := [], sites := [], stats := statsZero }

/-- A store with one downloading row that has a known prior size, and
nonzero counters. -/
def dbZeroSize : DB :=
  { downloads := [{ sampleRec "z" "S" "L" .downloading 1 with fileSizeMb := some 5 }],
    sites := [], stats := ⟨2, 1, 0, 7⟩ }

/-! ## Helper lemmas -/

theorem countBy_eq_length_iff (p : DownloadRec → Bool) (rs : List DownloadRec) :
    countBy p rs = rs.length ↔ ∀ r ∈ rs, p r := by
  unfold countBy
  constructor
  · intro h
    have he := (List.filter_sublist (l := rs) (p := p)).eq_of_length h
    intro r hr
    exact (List.mem_filter.mp (he ▸ hr)).2
  · intro h
    rw [List.filter_eq_self.mpr h]

theorem countBy_pos_iff (p : DownloadRec → Bool) (rs : List DownloadRec) :
    0 < countBy p rs ↔ ∃ r ∈ rs, p r := by
  unfold countBy
  rw [List.length_pos_iff_exists_mem]
  simp [List.mem_filter]

theorem countBy_le_of_imp (p q : DownloadRec → Bool) (rs : List DownloadRec)
    (h : ∀ r, q r = true → p r = true) : countBy q rs ≤ countBy p rs := by
  induction rs with
  | nil => simp [countBy]
  | cons a l ih =>
    simp only [countBy, List.filter_cons] at ih ⊢
    cases hq : q a
    · cases hp : p a <;> simp <;> omega
    · rw [h a hq]
      simp
      omega

theorem derive_eq_spec (downloads : List DownloadRec) (site : String) :
    deriveSiteStatus (siteCounts downloads site) = specSiteStatus downloads site := by
  unfold deriveSiteStatus siteCounts specSiteStatus
  simp only
  set rs := downloads.filter (fun r => decide (r.siteName = site)) with hdef
  have hc : countBy (fun r => decide (r.status = .completed)) rs = rs.length ↔
      ∀ r ∈ rs, r.status = FileStatus.completed := by
    rw [countBy_eq_length_iff]
    simp
  have hf : 0 < countBy (fun r => decide (r.status = .failed)) rs ↔
      ∃ r ∈ rs, r.status = FileStatus.failed := by
    rw [countBy_pos_iff]
    simp
  by_cases h1 : rs = []
  · have hlen : rs.length = 0 := by simp [h1]
    rw [if_pos hlen, if_pos h1]
  · have hlen : ¬ rs.length = 0 := by simpa [List.length_eq_zero] using h1
    rw [if_neg hlen, if_neg h1]
    by_cases h2 : ∀ r ∈ rs, r.status = FileStatus.completed
    · rw [if_pos (hc.mpr h2), if_pos h2]
    · rw [if_neg (fun hcc => h2 (hc.mp hcc)), if_neg h2]
      by_cases h3 : (∃ r ∈ rs, r.status = FileStatus.failed) ∧
          countBy (fun r => decide (r.status = .completed)) rs
            + countBy (fun r => decide (r.status = .failed)) rs = rs.length
      · rw [if_pos ⟨hf.mpr h3.1, h3.2⟩, if_pos h3]
      · rw [if_neg (fun hx => h3 ⟨hf.mp hx.1, hx.2⟩), if_neg h3]

theorem sitePass_start (maxRetry : Nat) :
    sitePass maxRetry ⟨.discovered, 0⟩ = ⟨FileStatus.failed, 1⟩ := by
  simp [sitePass, retryReset, workerStep, downloadFileAlwaysFails]

theorem sitePass_failed_lt (maxRetry k : Nat) (h : k < maxRetry) :
    sitePass maxRetry ⟨.failed, k⟩ = ⟨FileStatus.failed, k + 1⟩ := by
  simp [sitePass, retryReset, workerStep, downloadFileAlwaysFails, h]

theorem sitePass_failed_ge (maxRetry k : Nat) (h : maxRetry ≤ k) :
    sitePass maxRetry ⟨.failed, k⟩ = ⟨FileStatus.failed, k⟩ := by
  simp [sitePass, retryReset, workerStep, Nat.not_lt.mpr h, h]

theorem retry_iterate (maxRetry : Nat) (hm : 1 ≤ maxRetry) :
    ∀ n, 1 ≤ n → Nat.iterate (sitePass maxRetry) n ⟨.discovered, 0⟩ =
      ⟨FileStatus.failed, min n maxRetry⟩ := by
  intro n
  induction n with
  | zero => omega
  | succ n ih =>
    intro _
    rw [Function.iterate_succ_apply']
    rcases Nat.eq_zero_or_pos n with rfl | hn
    · rw [Function.iterate_zero_apply, sitePass_start]
      have hmin : min 1 maxRetry = 1 := by omega
      rw [hmin]
    · rw [ih hn]
      rcases Nat.lt_or_ge (min n maxRetry) maxRetry with h | h
      · rw [sitePass_failed_lt _ _ h]
        have : min n maxRetry + 1 = min (n + 1) maxRetry := by omega
        rw [this]
      · have hmin : min n maxRetry = maxRetry := by omega
        rw [hmin, sitePass_failed_ge _ _ le_rfl]
        have : maxRetry = min (n + 1) maxRetry := by omega
        rw [← this]

/-- C1: Resume correctness.  On a fresh run, a record already `completed`
is skipped by the worker (lines 858-861) and not re-enqueued by the discovery
walker (lines 924-926); a record left `discovered` or `downloading` is
enqueued by the walker and attempted by the worker at any attempt count,
exactly the decisions taken for a freshly discovered file (an absent record,
which `get_file_status` reports as status None). -/
theorem resume_correctness (st : FileStatus) (ac maxRetry : Nat) :
    (workerDecision (some .completed) ac maxRetry = .skipCompleted ∧
     walkerEnqueues (some .completed) = false) ∧
    (st = .discovered ∨ st = .downloading →
      workerDecision (some st) ac maxRetry = .attemptDownload ∧
      workerDecision (some st) ac maxRetry = workerDecision none 0 maxRetry ∧
      walkerEnqueues (some st) = true ∧
      walkerEnqueues (some st) = walkerEnqueues none) := by
  constructor
  · exact ⟨by simp [workerDecision], by simp [walkerEnqueues]⟩
  · rintro (rfl | rfl) <;> simp [workerDecision, walkerEnqueues]

/-- Witness for C1 at status `discovered`, attempt count 2, max-retry 3
and at status `downloading`. -/
theorem resume_correctness_witness :
    workerDecision (some .discovered) 2 3 = .attemptDownload ∧
    walkerEnqueues (some .downloading) = true :=
  ⟨((resume_correctness .discovered 2 3).2 (Or.inl rfl)).1,
   ((resume_correctness .downloading 2 3).2 (Or.inr rfl)).2.2.1⟩

/-- C2: Site rollup correctness.  `update_site_status` recomputes the counts
from the site's `downloads` rows and persists and returns exactly the pure
function of the aggregates stated by the claim: zero files gives `empty`,
all completed gives `completed`, some failed with completed+failed = total
gives `completed_with_errors`, otherwise `processing`. -/
theorem site_rollup_correctness (db : DB) (site : String) :
    (updateSiteStatus db site).2 = specSiteStatus db.downloads site ∧
    ∀ s ∈ (updateSiteStatus db site).1.sites, s.siteName = site →
      s.status = specSiteStatus db.downloads site := by
  constructor
  · exact derive_eq_spec db.downloads site
  · intro s hs hname
    simp only [updateSiteStatus] at hs
    rcases List.mem_map.mp hs with ⟨s0, hs0, rfl⟩
    by_cases h : s0.siteName = site
    · rw [if_pos h]
      exact derive_eq_spec db.downloads site
    · rw [if_neg h] at hname
      exact absurd hname h

/-- Witness for C2: site S with one completed and one failed file rolls up
to completed_with_errors, both as the returned status and in the persisted
site row. -/
theorem site_rollup_correctness_witness :
    (updateSiteStatus dbRollup "S").2 = SiteStatus.completedWithErrors ∧
    ∀ s ∈ (updateSiteStatus dbRollup "S").1.sites, s.siteName = "S" →
      s.status = SiteStatus.completedWithErrors := by
  have h := site_rollup_correctness dbRollup "S"
  have hspec : specSiteStatus dbRollup.downloads "S" = .completedWithErrors := by
    decide
  exact ⟨h.1.trans hspec, fun s hs hn => (h.2 s hs hn).trans hspec⟩

/-- C3: Retry bound.  A file whose download capability always fails, starting
from its freshly discovered state, is failed with attempt_count = MAX_RETRY
after MAX_RETRY site passes and stays there on every later pass; its
attempt_count never exceeds MAX_RETRY (each pass runs
`should_retry_failed_files` and then the worker's skip check and
`download_file`, which bumps attempt_count once). -/
theorem retry_bound (maxRetry n : Nat) (hm : 1 ≤ maxRetry) (hn : maxRetry ≤ n) :
    Nat.iterate (sitePass maxRetry) n ⟨.discovered, 0⟩ =
      ⟨FileStatus.failed, maxRetry⟩ ∧
    ∀ k, (Nat.iterate (sitePass maxRetry) k ⟨.discovered, 0⟩).attemptCount ≤ maxRetry := by
  constructor
  · rw [retry_iterate maxRetry hm n (le_trans hm hn)]
    have : min n maxRetry = maxRetry := by omega
    rw [this]
  · intro k
    rcases Nat.eq_zero_or_pos k with rfl | hk
    · simp
    · rw [retry_iterate maxRetry hm k hk]
      simp

/-- Witness for C3 at MAX_RETRY = 3, five site passes. -/
theorem retry_bound_witness :
    Nat.iterate (sitePass 3) 5 ⟨.discovered, 0⟩ = ⟨FileStatus.failed, 3⟩ ∧
    (Nat.iterate (sitePass 3) 2 ⟨.discovered, 0⟩).attemptCount ≤ 3 := by
  have h := retry_bound 3 5 (by omega) (by omega)
  exact ⟨h.1, h.2 2⟩

/-- C4: with MAX_RETRY = 3 and every attempt raising an exception, one
`download_file` invocation performs two terminal status writes, not at most
one: the final-attempt except branch writes `failed` (line 819) and the
unconditional post-loop write (lines 821-823) writes `failed` again, so
`failed_downloads` is bumped twice for the one attempt cycle. -/
theorem terminal_write_duplicated :
    (downloadFileTrace 30 [.raised, .raised, .raised]).writes =
      [TerminalWrite.failedW, TerminalWrite.failedW] ∧
    ¬ (downloadFileTrace 30 [.raised, .raised, .raised]).writes.length ≤ 1 := by
  decide

/-- C5 counterexample: a local file of 1048576 bytes matching the remote size
takes the skip path, but the skipped-existing counter is left unchanged (no
code path ever increments it), refuting the claimed increment by 1. -/
theorem skip_counter_not_incremented :
    precheckSkips true 1048576 (some 1048576) = true ∧
    (downloadFileRun dbSkip "f" true 1048576 (some 1048576) 30
        [.success, .success, .success] none "e").1.stats.skippedExisting =
      dbSkip.stats.skippedExisting ∧
    ¬ (downloadFileRun dbSkip "f" true 1048576 (some 1048576) 30
        [.success, .success, .success] none "e").1.stats.skippedExisting =
      dbSkip.stats.skippedExisting + 1 := by
  have hpre : precheckSkips true 1048576 (some 1048576) = true := by decide
  have hb : bytesToMb 1048576 = 1 := by
    norm_num [bytesToMb]
  have hmb : sizeMbOfBytes (some 1048576) = some 1 := by
    simp [sizeMbOfBytes, hb]
  have hrun : downloadFileRun dbSkip "f" true 1048576 (some 1048576) 30
      [.success, .success, .success] none "e" =
      (updateDownloadStatus dbSkip "f" .completed none (some 1048576), 0) := by
    rw [downloadFileRun, if_pos hpre]
  have hstat : (updateDownloadStatus dbSkip "f" .completed none
      (some 1048576)).stats.skippedExisting = 0 := by
    simp only [updateDownloadStatus, hmb]
    rfl
  have hz : dbSkip.stats.skippedExisting = 0 := rfl
  refine ⟨hpre, ?_, ?_⟩
  · rw [hrun, hz]
    exact hstat
  · rw [hrun, hz]
    simp [hstat]

/-- C5 amended: when the local file exists and its size equals the truthy
remote size, `download_file` makes no download call and its whole store
effect is the completion write: the record's status becomes `completed` (with
its size recorded), `successful_downloads` is incremented by 1, and the
skipped-existing counter is left unchanged (the source never increments it). -/
theorem skip_on_size_match (db : DB) (path : String) (localSize : Nat)
    (remoteSize : Option Nat) (baseDelay : Nat) (outcomes : List AttemptOutcome)
    (obsSize : Option Nat) (errMsg : String)
    (h : precheckSkips true localSize remoteSize = true) :
    downloadFileRun db path true localSize remoteSize baseDelay outcomes obsSize errMsg =
      (updateDownloadStatus db path .completed none (some localSize), 0) ∧
    (updateDownloadStatus db path .completed none (some localSize)).stats.skippedExisting
      = db.stats.skippedExisting ∧
    (updateDownloadStatus db path .completed none (some localSize)).stats.successfulDownloads
      = db.stats.successfulDownloads + 1 ∧
    ∀ r ∈ db.downloads, r.filePath = path →
      { r with status := FileStatus.completed, errorMessage := none,
               fileSizeMb := some (bytesToMb localSize) } ∈
        (updateDownloadStatus db path .completed none (some localSize)).downloads := by
  have hsz : localSize ≠ 0 := by
    cases remoteSize with
    | none => simp [precheckSkips] at h
    | some rs =>
      simp [precheckSkips] at h
      omega
  have hmb : sizeMbOfBytes (some localSize) = some (bytesToMb localSize) := by
    simp [sizeMbOfBytes, hsz]
  refine ⟨?_, ?_, ?_, ?_⟩
  · rw [downloadFileRun, if_pos h]
  · by_cases hc : bytesToMb localSize = 0
    · simp [updateDownloadStatus, hmb, hc]
    · simp [updateDownloadStatus, hmb, hc]
  · by_cases hc : bytesToMb localSize = 0
    · simp [updateDownloadStatus, hmb, hc]
    · simp [updateDownloadStatus, hmb, hc]
  · intro r hr hpath
    have hd : (updateDownloadStatus db path .completed none (some localSize)).downloads =
        db.downloads.map (fun x =>
          if x.filePath = path then
            { x with status := FileStatus.completed, errorMessage := none,
                     fileSizeMb := some (bytesToMb localSize) }
          else x) := by
      simp [updateDownloadStatus, hmb]
    rw [hd]
    refine List.mem_map.mpr ⟨r, hr, ?_⟩
    exact if_pos hpath

/-- Witness for C5's amended claim at the concrete size-match input. -/
theorem skip_on_size_match_witness :
    downloadFileRun dbSkip "f" true 1048576 (some 1048576) 30
        [.success, .success, .success] none "e" =
      (updateDownloadStatus dbSkip "f" .completed none (some 1048576), 0) ∧
    (updateDownloadStatus dbSkip "f" .completed none (some 1048576)).stats.successfulDownloads
      = dbSkip.stats.successfulDownloads + 1 := by
  have h := skip_on_size_match dbSkip "f" 1048576 (some 1048576) 30
    [.success, .success, .success] none "e" (by decide)
  exact ⟨h.1, h.2.2.1⟩

/-- C6: Reset semantics.  `--reset-site X` deletes site X's `sites` row
(leaving the others), sets every non-completed `downloads` row of site X to
`discovered` with attempt_count 0, leaves every completed row of site X (and
every row of other sites) unchanged, and — when the connection has made no
prior changes — reports the count of changed rows: the deleted site rows plus
the download rows matched by the update. -/
theorem reset_semantics (db : DB) (site : String) (priorChanges : Nat)
    (h : priorChanges = 0) :
    (∀ s ∈ (resetSite db site priorChanges).1.sites, s.siteName ≠ site) ∧
    (∀ s ∈ db.sites, s.siteName ≠ site → s ∈ (resetSite db site priorChanges).1.sites) ∧
    (∀ r ∈ db.downloads, r.siteName = site → r.status ≠ .completed →
      { r with status := FileStatus.discovered, attemptCount := 0 } ∈
        (resetSite db site priorChanges).1.downloads) ∧
    (∀ r ∈ db.downloads, r.siteName ≠ site ∨ r.status = .completed →
      r ∈ (resetSite db site priorChanges).1.downloads) ∧
    (resetSite db site priorChanges).2 =
      (db.sites.filter (fun s => decide (s.siteName = site))).length +
        countBy (fun r => decide (r.siteName = site ∧ r.status ≠ .completed))
          db.downloads := by
  subst h
  refine ⟨?_, ?_, ?_, ?_, ?_⟩
  · intro s hs
    simp only [resetSite, List.mem_filter] at hs
    simpa using hs.2
  · intro s hs hn
    simp only [resetSite, List.mem_filter]
    exact ⟨hs, by simpa using hn⟩
  · intro r hr h1 h2
    refine List.mem_map.mpr ⟨r, hr, ?_⟩
    exact if_pos ⟨h1, h2⟩
  · intro r hr hor
    have hneg : ¬ (r.siteName = site ∧ r.status ≠ .completed) := by
      rcases hor with h1 | h2
      · exact fun hx => h1 hx.1
      · exact fun hx => hx.2 h2
    refine List.mem_map.mpr ⟨r, hr, ?_⟩
    exact if_neg hneg
  · simp [resetSite]

/-- Witness for C6: resetting site X in the concrete store resets its failed
file, keeps its completed file, removes its site row, and reports 2 changed
rows (1 site row deleted + 1 download row updated). -/
theorem reset_semantics_witness :
    { sampleRec "b" "X" "L" .failed 3 with
        status := FileStatus.discovered, attemptCount := 0 } ∈
      (resetSite dbReset "X" 0).1.downloads ∧
    sampleRec "a" "X" "L" .completed 2 ∈ (resetSite dbReset "X" 0).1.downloads ∧
    (∀ s ∈ (resetSite dbReset "X" 0).1.sites, s.siteName ≠ "X") ∧
    (resetSite dbReset "X" 0).2 = 2 := by
  have h := reset_semantics dbReset "X" 0 rfl
  refine ⟨?_, ?_, h.1, ?_⟩
  · exact h.2.2.1 _ (by simp [dbReset]) rfl (by decide)
  · exact h.2.2.2.1 _ (by simp [dbReset]) (Or.inr rfl)
  · rw [h.2.2.2.2]
    decide

/-- C7 counterexample: a store whose only `downloading` row belongs to site A,
library L1.  A worker of site B, library L2 would retire under the claimed
per-site+library check (no file of its library is downloading), but the
source's check (lines 883-890) counts `downloading` rows globally, so the
worker does not retire. -/
theorem worker_retirement_not_scoped :
    specWorkerRetires dbOtherBusy "B" "L2" = true ∧
    workerRetires dbOtherBusy = false := by
  decide

/-- C7 amended: on an empty-queue timeout the worker checks whether any file
anywhere in the store — with no site or library filter — is still
`downloading`, and retires only if none is; in particular, when it does
retire, no file of its own site+library is downloading either. -/
theorem worker_retirement_global (db : DB) (site library : String)
    (h : workerRetires db = true) :
    countDownloadingAll db = 0 ∧ specWorkerRetires db site library = true := by
  have h0 : countDownloadingAll db = 0 := by
    simpa [workerRetires] using h
  refine ⟨h0, ?_⟩
  have hle : countDownloadingInLibrary db site library ≤ countDownloadingAll db := by
    apply countBy_le_of_imp
    intro r hq
    simp only [decide_eq_true_eq] at hq ⊢
    exact hq.1
  simp only [specWorkerRetires, decide_eq_true_eq]
  omega

/-- Witness for C7's amended claim on a store with nothing in flight. -/
theorem worker_retirement_global_witness :
    countDownloadingAll dbIdle = 0 ∧ specWorkerRetires dbIdle "A" "L1" = true :=
  worker_retirement_global dbIdle "A" "L1" (by decide)

/-- C8 counterexample: a generic exception (a transient error such as a
timeout or connection reset surfacing as a raised exception) on the first
attempt with API_RETRY_DELAY = 30 makes the worker sleep 2 seconds
(line 817: `time.sleep(2 * (attempt + 1))`), not base-delay x attempt
number = 30. -/
theorem backoff_not_base_delay :
    (downloadFileTrace 30 [.raised, .success, .success]).sleeps = [2] ∧
    ¬ (downloadFileTrace 30 [.raised, .success, .success]).sleeps = [30 * 1] := by
  decide

/-- C8 amended: on every non-final failed attempt the sleep is linear in the
attempt number, but with two different bases: a falsy download response or an
IndexError sleeps API_RETRY_DELAY x attempt-number (lines 800, 808), while a
generic raised exception sleeps 2 x attempt-number (line 817), ignoring the
configured base delay. -/
theorem backoff_linear_per_class (base i : Nat) (o : AttemptOutcome)
    (rest : List AttemptOutcome) (hrest : rest ≠ []) (ho : o ≠ .success) :
    (retryLoopTrace base i (o :: rest)).sleeps =
      (if o = .raised then 2 * (i + 1) else base * (i + 1)) ::
        (retryLoopTrace base (i + 1) rest).sleeps := by
  have h' : rest.isEmpty = false := by
    simp [List.isEmpty_iff, hrest]
  cases o with
  | success => exact absurd rfl ho
  | noResponse => simp [retryLoopTrace, h']
  | raised => simp [retryLoopTrace, h']
  | idxError => simp [retryLoopTrace, h']

/-- Witness for C8's amended claim: falsy response on the first of two
attempts with base delay 30 sleeps 30 x 1. -/
theorem backoff_linear_per_class_witness :
    (retryLoopTrace 30 0 [AttemptOutcome.noResponse, AttemptOutcome.success]).sleeps =
      30 * 1 :: (retryLoopTrace 30 1 [AttemptOutcome.success]).sleeps := by
  have h := backoff_linear_per_class 30 0 .noResponse [.success]
    (by decide) (by decide)
  simpa using h

/-- C9: a path with no `downloads` row gets `(None, 0)` from
`get_file_status` (lines 536-546); on that result the worker's dispatch is
to attempt the download and the discovery walker records and enqueues the
file, i.e. an absent record is treated as eligible for discovery and
download. -/
theorem absent_record_defaults (db : DB) (path : String) (maxRetry : Nat)
    (h : ∀ r ∈ db.downloads, r.filePath ≠ path) :
    getFileStatus db path = (none, 0) ∧
    workerDecision (getFileStatus db path).1 (getFileStatus db path).2 maxRetry
      = .attemptDownload ∧
    walkerEnqueues (getFileStatus db path).1 = true := by
  have hfind : db.downloads.find? (fun r => decide (r.filePath = path)) = none := by
    rw [List.find?_eq_none]
    intro r hr
    simpa using h r hr
  have hg : getFileStatus db path = (none, 0) := by
    simp [getFileStatus, hfind]
  refine ⟨hg, ?_, ?_⟩ <;> rw [hg] <;> simp [workerDecision, walkerEnqueues]

/-- Witness for C9 on the empty store at MAX_RETRY = 3. -/
theorem absent_record_defaults_witness :
    getFileStatus dbEmpty "x" = (none, 0) ∧
    workerDecision (getFileStatus dbEmpty "x").1 (getFileStatus dbEmpty "x").2 3
      = .attemptDownload ∧
    walkerEnqueues (getFileStatus dbEmpty "x").1 = true :=
  absent_record_defaults dbEmpty "x" 3 (by simp [dbEmpty])

/-- C10: a completion write whose observed size is 0 bytes or unknown (None)
leaves every row's stored file_size_mb at its prior value (the COALESCE keeps
it) and does not change mb_downloaded, while successful_downloads is still
incremented by 1. -/
theorem zero_size_completion (db : DB) (path : String)
    (fileSizeBytes : Option Nat)
    (h : fileSizeBytes = none ∨ fileSizeBytes = some 0) :
    (updateDownloadStatus db path .completed none fileSizeBytes).downloads =
      db.downloads.map (fun r =>
        if r.filePath = path then
          { r with status := FileStatus.completed, errorMessage := none }
        else r) ∧
    (updateDownloadStatus db path .completed none fileSizeBytes).stats.mbDownloaded
      = db.stats.mbDownloaded ∧
    (updateDownloadStatus db path .completed none fileSizeBytes).stats.successfulDownloads
      = db.stats.successfulDownloads + 1 := by
  have hs : sizeMbOfBytes fileSizeBytes = none := by
    rcases h with rfl | rfl <;> simp [sizeMbOfBytes]
  refine ⟨?_, ?_, ?_⟩ <;> simp [updateDownloadStatus, hs]

/-- Witness for C10: completing the store's only row with size None keeps its
stored size (5 MB) untouched, leaves mb_downloaded at 7, and bumps
successful_downloads from 2 to 3. -/
theorem zero_size_completion_witness :
    (updateDownloadStatus dbZeroSize "z" .completed none none).stats.mbDownloaded
      = dbZeroSize.stats.mbDownloaded ∧
    (updateDownloadStatus dbZeroSize "z" .completed none none).stats.successfulDownloads
      = dbZeroSize.stats.successfulDownloads + 1 := by
  have h := zero_size_completion dbZeroSize "z" none (Or.inl rfl)
  exact ⟨h.2.1, h.2.2⟩

end SPB

